import Mathlib

/-!
Shallow embedding of the SAS device-verification engine (Go package
`crypto`, file with `getPKAndKeysMAC`, `handleVerification*`,
`NewSASVerificationWith`, `commonSASMethods`).

Conventions of the embedding:
 * Matrix identifiers (`id.UserID`, `id.DeviceID`, `id.KeyID`,
   `id.SigningKey`) are modelled as `String`; `.String()` is the identity.
 * The olm cryptographic black box is abstracted: `sas.CalculateMAC` is a
   parameter `macF : String → String → String` (key material, info), and
   `olm.NewUtility().Sha256` is a parameter `sha256F : String → String`.
   Both are deterministic total functions, matching the specified
   "cryptographic black box" contract.
 * JSON marshalling plus canonical-JSON of a start event is abstracted as
   a parameter `canonicalF : VerificationStartEventContent → String`.
 * The `sync.Map` transaction store is modelled as an association list
   with atomic `Load` / `LoadOrStore` / `Delete` operations; handlers are
   pure step functions from a machine state to a result that records the
   new store, the outbound to-device messages, the hook invocations and
   the trust-store writes performed by the step.
-/

namespace SASVerification

/-- Cancellation codes of `event.VerificationCancelCode` used by this module. -/
inductive CancelCode where
  | byUser
  | byTimeout
  | unknownTransaction
  | unknownMethod
  | unexpectedMessage
  | keyMismatch
  | userMismatch
  | commitmentMismatch
  | sasMismatch
deriving DecidableEq, Repr

/-- Subset of `DeviceIdentity` fields used by the verification module. -/
structure DeviceIdentity where
  userID : String
  deviceID : String
  signingKey : String
deriving DecidableEq, Repr

/-- Embedding of the Go `verificationState` struct. The `olm.SAS` object is
represented by its public key (`sas.GetPubkey()`) and the peer key stored by
`sas.SetTheirKey` ; the `sasMatched` one-shot channel is represented by the
value it currently holds, if any ; `hooks.VerificationMethods()` is captured
as the `hookMethods` list (a `VerificationMethod` is identified with the
string returned by its `Type()`). -/
structure verificationState where
  sasPubkey : String
  theirKey : Option String
  otherUser : String
  otherDeviceID : String
  otherSigningKey : String
  initiatedByUs : Bool
  verificationStarted : Bool
  keyReceived : Bool
  sasMatchedSent : Option Bool
  commitment : String
  startEventCanonical : String
  chosenSASMethod : String
  hookMethods : List String
deriving DecidableEq, Repr

/-- The transaction store: `mach.keyVerificationTransactionState`, a map
from `userID ++ ":" ++ transactionID` to a `verificationState`. -/
abbrev Store := List (String × verificationState)

/-- Embedding of `sync.Map.Load`. -/
def storeLoad (s : Store) (k : String) : Option verificationState :=
  (s.find? (fun e => e.1 == k)).map (fun e => e.2)

/-- Embedding of `sync.Map.Delete`. -/
def storeDelete (s : Store) (k : String) : Store :=
  s.filter (fun e => e.1 != k)

/-- Embedding of `sync.Map.LoadOrStore`: returns the updated store and whether the key
was already present (`loaded`). -/
def loadOrStore (s : Store) (k : String) (v : verificationState) : Store × Bool :=
  match storeLoad s k with
  | some _ => (s, true)
  | none => ((k, v) :: s, false)

/-- Number of entries stored at key `k`. -/
def countKey (s : Store) (k : String) : Nat :=
  (s.filter (fun e => e.1 == k)).length

/-- The local machine: `mach.Client.UserID`, `mach.Client.DeviceID`,
`mach.account.SigningKey()` and the transaction store. -/
structure Machine where
  userID : String
  deviceID : String
  signingKey : String
  store : Store
deriving DecidableEq, Repr

/-- Outbound to-device messages produced by `sendToOneDevice` calls. -/
inductive OutMsg where
  | cancelMsg (toUser toDevice transactionID reason : String) (code : CancelCode)
  | startMsg (toUser toDevice transactionID : String) (sasMethods : List String)
  | acceptMsg (toUser toDevice transactionID commitment : String) (sasMethods : List String)
  | keyMsg (toUser toDevice transactionID key : String)
  | macMsg (toUser toDevice transactionID keys : String) (macs : List (String × String))
deriving DecidableEq, Repr

/-- Whether an outbound message is a Cancel message. -/
def OutMsg.isCancel : OutMsg → Bool
  | .cancelMsg _ _ _ _ _ => true
  | _ => false

/-- Calls into the host-side `VerificationHooks`, plus the spawning of the
asynchronous SAS comparison (`hooks.VerifySASMatch` in a goroutine). -/
inductive HookCall where
  | onCancel (cancelledByUs : Bool) (reason : String) (code : CancelCode)
  | onSuccess
  | askSASMatch
deriving DecidableEq, Repr

/-- Result of one synchronous handler step: the new transaction store, the
outbound messages sent, and the hook calls made. -/
structure StepResult where
  store : Store
  msgs : List OutMsg
  hooks : List HookCall
deriving DecidableEq, Repr

/-- Result of the deferred part of the MAC handler (the goroutine awaiting
the `sasMatched` channel): messages, hook calls, and trust-store writes
(`CryptoStore.PutDevice` with `Trust = TrustStateVerified`), each write
recorded as a `(userID, deviceID)` pair. -/
structure MacResult where
  msgs : List OutMsg
  hooks : List HookCall
  trust : List (String × String)
deriving DecidableEq, Repr

/-- Lexicographic sort of the key-id strings, modelling
`sort.Sort(sort.StringSlice(keyIDStrings))`. Any correct sort of a list of
strings yields the same output, so insertion sort is a faithful model. -/
def sortStrings (l : List String) : List String :=
  List.insertionSort (fun a b => a ≤ b) l

/-- Embedding of `getPKAndKeysMAC`. `keys = none` models a nil Go map (the
key-id string is then the main key id); `keys = some ks` models a non-nil
map whose key set, in iteration order, is `ks` (the values of the map are never
read by the Go code). Returns `(pubKeyMac, keysMac)`. -/
def getPKAndKeysMAC (macF : String → String → String)
    (sendingUser sendingDevice receivingUser receivingDevice : String)
    (transactionID signingKey mainKeyID : String)
    (keys : Option (List String)) : String × String :=
  let sasInfo := "MATRIX_KEY_VERIFICATION_MAC" ++
    sendingUser ++ sendingDevice ++
    receivingUser ++ receivingDevice ++
    transactionID
  let keyIDString :=
    match keys with
    | none => mainKeyID
    | some ks => String.intercalate "," (sortStrings ks)
  let pubKeyMac := macF signingKey (sasInfo ++ mainKeyID)
  let keysMac := macF keyIDString (sasInfo ++ "KEY_IDS")
  (pubKeyMac, keysMac)

/-- Store-level in-place mutation of a stored transaction: the Go
handlers mutate the `*verificationState` behind the stored pointer, which
is modelled by replacing the value bound at the key. -/
def storeUpdate (s : Store) (k : String) (v : verificationState) : Store :=
  s.map (fun e => if e.1 == k then (k, v) else e)

/-- Go map indexing `m[k]` for a `map[id.KeyID]string`: the zero value `""`
is returned when the key is absent. -/
def mapGet (m : List (String × String)) (k : String) : String :=
  ((m.find? (fun e => e.1 == k)).map (fun e => e.2)).getD ""

/-- Content of an inbound `m.key.verification.key` message. -/
structure VerificationKeyEventContent where
  transactionID : String
  key : String
deriving DecidableEq, Repr

/-- Content of an inbound `m.key.verification.accept` message. -/
structure VerificationAcceptEventContent where
  transactionID : String
  keyAgreementProtocol : String
  hash : String
  messageAuthenticationCode : String
  shortAuthenticationString : List String
  commitment : String
deriving DecidableEq, Repr

/-- Content of an inbound `m.key.verification.mac` message. The Go
`map[id.KeyID]string` field `Mac` is modelled as an association list. -/
structure VerificationMacEventContent where
  transactionID : String
  keys : String
  mac : List (String × String)
deriving DecidableEq, Repr

/-- Content of an inbound `m.key.verification.cancel` message. -/
structure VerificationCancelEventContent where
  transactionID : String
  reason : String
  code : CancelCode
deriving DecidableEq, Repr

/-- Content of an outbound `m.key.verification.start` message, as built by
`SendSASVerificationStart`. -/
structure VerificationStartEventContent where
  fromDevice : String
  transactionID : String
  method : String
  keyAgreementProtocols : List String
  hashes : List String
  messageAuthenticationCodes : List String
  shortAuthenticationString : List String
deriving DecidableEq, Repr

/-- Embedding of `getTransactionState`: looks the transaction up under the
`userID ++ ":" ++ transactionID` key; an unknown transaction sends a Cancel
to the wildcard device `*` with the unknown-transaction code and leaves the
store untouched; a stored transaction whose peer user differs from the
sender sends a user-mismatch Cancel to `*` and deletes the entry. Returns
the state on success together with the (possibly updated) store and the
messages sent. -/
def getTransactionState (store : Store) (transactionID userID : String) :
    Option verificationState × Store × List OutMsg :=
  match storeLoad store (userID ++ ":" ++ transactionID) with
  | none =>
      (none, store,
       [OutMsg.cancelMsg userID "*" transactionID
          ("Unknown transaction: " ++ transactionID) .unknownTransaction])
  | some verState =>
      if verState.otherUser != userID then
        (none, storeDelete store (userID ++ ":" ++ transactionID),
         [OutMsg.cancelMsg userID "*" transactionID
            ("Unknown user for transaction " ++ transactionID ++ ": " ++ userID) .userMismatch])
      else (some verState, store, [])

/-- Embedding of `commonSASMethods`: keeps, in the preference
order of the local hooks, each hook method whose type occurs among the peer-advertised
methods (a `VerificationMethod` is identified with its `Type()` string). -/
def commonSASMethods (hookMethods : List String) (otherDeviceMethods : List String) :
    List String :=
  hookMethods.filter (fun m => otherDeviceMethods.any (fun o => m == o))

/-- Embedding of `handleVerificationAccept` after the debug log: transaction
lookup, unexpected-accept check, negotiated-parameter check, then storing
the peer commitment, choosing the first common SAS method, marking the
verification started and sending our ephemeral Key message. -/
def handleVerificationAccept (mach : Machine) (userID : String)
    (content : VerificationAcceptEventContent) : StepResult :=
  let mapKey := userID ++ ":" ++ content.transactionID
  match getTransactionState mach.store content.transactionID userID with
  | (none, store1, msgs) => ⟨store1, msgs, []⟩
  | (some verState, store1, _) =>
    if !verState.initiatedByUs || verState.verificationStarted then
      ⟨storeDelete store1 mapKey,
       [OutMsg.cancelMsg verState.otherUser verState.otherDeviceID content.transactionID
          "Unexpected accept message" .unexpectedMessage],
       [HookCall.onCancel true "Unexpected accept message" .unexpectedMessage]⟩
    else
      let sasMethods := commonSASMethods verState.hookMethods content.shortAuthenticationString
      if content.keyAgreementProtocol != "curve25519-hkdf-sha256" ||
          content.hash != "sha256" ||
          content.messageAuthenticationCode != "hkdf-hmac-sha256" ||
          sasMethods.isEmpty then
        ⟨storeDelete store1 mapKey,
         [OutMsg.cancelMsg verState.otherUser verState.otherDeviceID content.transactionID
            "Verification uses unknown method" .unknownMethod],
         [HookCall.onCancel true "Verification uses unknown method" .unknownMethod]⟩
      else
        let verState1 := { verState with
          commitment := content.commitment,
          chosenSASMethod := sasMethods.headD "",
          verificationStarted := true }
        ⟨storeUpdate store1 mapKey verState1,
         [OutMsg.keyMsg userID verState.otherDeviceID content.transactionID verState.sasPubkey],
         []⟩

/-- Embedding of `handleVerificationKey`: transaction lookup, duplicate and
premature-key rejection, `sas.SetTheirKey`, initiator-side commitment check
(SHA-256 of the received key concatenated with the retained canonical start
payload), responder-side Key reply, and the spawning of the asynchronous
`VerifySASMatch` comparison. -/
def handleVerificationKey (sha256F : String → String) (mach : Machine)
    (userID : String) (content : VerificationKeyEventContent) : StepResult :=
  let mapKey := userID ++ ":" ++ content.transactionID
  match getTransactionState mach.store content.transactionID userID with
  | (none, store1, msgs) => ⟨store1, msgs, []⟩
  | (some verState, store1, _) =>
    if !verState.verificationStarted || verState.keyReceived then
      ⟨storeDelete store1 mapKey,
       [OutMsg.cancelMsg verState.otherUser verState.otherDeviceID content.transactionID
          "Unexpected key message" .unexpectedMessage],
       [HookCall.onCancel true "Unexpected key message" .unexpectedMessage]⟩
    else
      let verState1 := { verState with theirKey := some content.key, keyReceived := true }
      if verState.initiatedByUs then
        let expectedCommitment := sha256F (content.key ++ verState.startEventCanonical)
        if expectedCommitment != verState.commitment then
          ⟨storeDelete store1 mapKey,
           [OutMsg.cancelMsg verState.otherUser verState.otherDeviceID content.transactionID
              "Commitment mismatch" .commitmentMismatch],
           [HookCall.onCancel true "Commitment mismatch" .commitmentMismatch]⟩
        else
          ⟨storeUpdate store1 mapKey verState1, [], [HookCall.askSASMatch]⟩
      else
        ⟨storeUpdate store1 mapKey verState1,
         [OutMsg.keyMsg userID verState.otherDeviceID content.transactionID verState.sasPubkey],
         [HookCall.askSASMatch]⟩

/-- Embedding of the synchronous part of `handleVerificationMAC` (up to the
`go func()`): transaction lookup, unconditional removal of the transaction
from the store ("we are done with this SAS verification in all cases so we
forget about it"), the unexpected-MAC check, and whether the deferred
goroutine waiting on `sasMatched` was spawned (the returned `Bool`). -/
def handleVerificationMAC (mach : Machine) (userID : String)
    (content : VerificationMacEventContent) : StepResult × Bool :=
  match getTransactionState mach.store content.transactionID userID with
  | (none, store1, msgs) => (⟨store1, msgs, []⟩, false)
  | (some verState, store1, _) =>
    let mapKey := userID ++ ":" ++ content.transactionID
    let store2 := storeDelete store1 mapKey
    if !verState.verificationStarted || !verState.keyReceived then
      (⟨store2,
        [OutMsg.cancelMsg verState.otherUser verState.otherDeviceID content.transactionID
           "Unexpected MAC message" .unexpectedMessage],
        [HookCall.onCancel true "Unexpected MAC message" .unexpectedMessage]⟩, false)
    else (⟨store2, [], []⟩, true)

/-- The `getPKAndKeysMAC` call made by the deferred part of
`handleVerificationMAC`, with roles reversed: the peer as sending
user/device, us as receiving user/device, the signing key of the peer as key
material, `ed25519:<peer device>` as main key id and the key ids of the
supplied MAC map. -/
def expectedMACs (macF : String → String → String) (mach : Machine)
    (verState : verificationState) (content : VerificationMacEventContent) :
    String × String :=
  getPKAndKeysMAC macF verState.otherUser verState.otherDeviceID
    mach.userID mach.deviceID content.transactionID verState.otherSigningKey
    ("ed25519:" ++ verState.otherDeviceID) (some (content.mac.map (fun e => e.1)))

/-- Embedding of the deferred goroutine of `handleVerificationMAC`, run
once the local `sasMatched` result is available: a local mismatch cancels
with the SAS-mismatch code; otherwise the `expectedMACs` are recomputed
and compared byte-exactly with the supplied `keys` field and with the
per-key MAC at `ed25519:<peer device>`; only if both match is the peer
device written to the trust store and `OnSuccess` invoked. -/
def handleVerificationMACResult (macF : String → String → String) (mach : Machine)
    (verState : verificationState) (content : VerificationMacEventContent)
    (matched : Bool) : MacResult :=
  if !matched then
    ⟨[OutMsg.cancelMsg verState.otherUser verState.otherDeviceID content.transactionID
        "SAS do not match" .sasMismatch],
     [HookCall.onCancel true "SAS do not match" .sasMismatch], []⟩
  else
    let keyID := "ed25519:" ++ verState.otherDeviceID
    let expected := expectedMACs macF mach verState content
    if content.keys != expected.2 then
      ⟨[OutMsg.cancelMsg verState.otherUser verState.otherDeviceID content.transactionID
          "Mismatched keys MACs" .keyMismatch],
       [HookCall.onCancel true "Mismatched keys MACs" .keyMismatch], []⟩
    else if mapGet content.mac keyID != expected.1 then
      ⟨[OutMsg.cancelMsg verState.otherUser verState.otherDeviceID content.transactionID
          "Mismatched PK MACs" .keyMismatch],
       [HookCall.onCancel true "Mismatched PK MACs" .keyMismatch], []⟩
    else
      ⟨[], [HookCall.onSuccess], [(verState.otherUser, verState.otherDeviceID)]⟩

/-- Embedding of `handleVerificationCancel`: never replies (to avoid cancel
loops), invokes `OnCancel(false, reason, code)` when the transaction
existed, and deletes the entry unconditionally — even when the sender does
not match the stored peer. -/
def handleVerificationCancel (mach : Machine) (userID : String)
    (content : VerificationCancelEventContent) : StepResult :=
  let mapKey := userID ++ ":" ++ content.transactionID
  let hookCalls :=
    match storeLoad mach.store mapKey with
    | some _ => [HookCall.onCancel false content.reason content.code]
    | none => []
  ⟨storeDelete mach.store mapKey, [], hookCalls⟩

/-- Embedding of one deadline-exceeded firing of the `timeoutAfter`
goroutine: if the transaction is no longer in the store it does nothing;
otherwise it deletes the transaction and cancels it with the timeout code. -/
def timeoutFire (store : Store) (verState : verificationState)
    (transactionID : String) : StepResult :=
  let mapKey := verState.otherUser ++ ":" ++ transactionID
  match storeLoad store mapKey with
  | none => ⟨store, [], []⟩
  | some _ =>
      ⟨storeDelete store mapKey,
       [OutMsg.cancelMsg verState.otherUser verState.otherDeviceID transactionID
          "Timed out" .byTimeout],
       [HookCall.onCancel true "Timed out" .byTimeout]⟩

/-- Embedding of `SendSASVerificationAccept`: for a non-SAS start method a
Cancel is sent and the unknown-method error is returned; otherwise the
commitment is SHA-256 of our ephemeral public key concatenated, with no
separator, with the canonical JSON of the start event, and the Accept
message carrying it is sent. -/
def SendSASVerificationAccept (sha256F : String → String)
    (canonicalF : VerificationStartEventContent → String)
    (fromUser : String) (startEvent : VerificationStartEventContent)
    (publicKey : String) (methods : List String) : List OutMsg :=
  if startEvent.method != "m.sas" then
    [OutMsg.cancelMsg fromUser startEvent.fromDevice startEvent.transactionID
       ("Unknown verification method: " ++ startEvent.method) .unknownMethod]
  else
    let hash := sha256F (publicKey ++ canonicalF startEvent)
    [OutMsg.acceptMsg fromUser startEvent.fromDevice startEvent.transactionID hash methods]

/-- Host response to `AcceptVerificationFrom`. -/
inductive VerificationRequestResponse where
  | AcceptRequest
  | RejectRequest
  | IgnoreRequest
deriving DecidableEq, Repr

/-- Embedding of `actuallyStartVerification` (the responder-side creation
path): on host acceptance, negotiate the SAS methods, build the new
transaction state with the first common method chosen, atomically
`LoadOrStore` it under `userID ++ ":" ++ transactionID`, cancel with
"Transaction already exists" if the key was occupied, and otherwise send
the Accept message. `newPubkey` is the public key of the freshly generated
`olm.NewSAS()`. Returns the new store and the messages sent. -/
def actuallyStartVerification (sha256F : String → String)
    (canonicalF : VerificationStartEventContent → String)
    (mach : Machine) (userID : String) (content : VerificationStartEventContent)
    (otherDevice : DeviceIdentity) (resp : VerificationRequestResponse)
    (hookMethods : List String) (newPubkey : String) : Store × List OutMsg :=
  match resp with
  | .AcceptRequest =>
    let sasMethods := commonSASMethods hookMethods content.shortAuthenticationString
    if sasMethods.isEmpty then
      (mach.store,
       [OutMsg.cancelMsg otherDevice.userID otherDevice.deviceID content.transactionID
          "No common SAS methods" .unknownMethod])
    else
      let verState : verificationState := {
        sasPubkey := newPubkey
        theirKey := none
        otherUser := otherDevice.userID
        otherDeviceID := otherDevice.deviceID
        otherSigningKey := otherDevice.signingKey
        initiatedByUs := false
        verificationStarted := true
        keyReceived := false
        sasMatchedSent := none
        commitment := ""
        startEventCanonical := ""
        chosenSASMethod := sasMethods.headD ""
        hookMethods := hookMethods }
      let res := loadOrStore mach.store (userID ++ ":" ++ content.transactionID) verState
      if res.2 then
        (res.1,
         [OutMsg.cancelMsg otherDevice.userID otherDevice.deviceID content.transactionID
            "Transaction already exists" .unexpectedMessage])
      else
        (res.1, SendSASVerificationAccept sha256F canonicalF userID content newPubkey sasMethods)
  | .RejectRequest =>
      (mach.store,
       [OutMsg.cancelMsg otherDevice.userID otherDevice.deviceID content.transactionID
          "Not accepted by user" .byUser])
  | .IgnoreRequest => (mach.store, [])

/-- Embedding of `NewSASVerificationWith` (the initiator-side creation
path) for a caller-supplied non-empty transaction id: builds the start
event, sends it, retains its canonical JSON, then atomically `LoadOrStore`s
the new transaction state; if the key was occupied the call fails with the
"Transaction already exists" error and the store is left unchanged (note
the start message has already been sent at that point, as in the source). -/
def NewSASVerificationWith (canonicalF : VerificationStartEventContent → String)
    (mach : Machine) (device : DeviceIdentity) (hookMethods : List String)
    (transactionID : String) (newPubkey : String) :
    Except String String × Store × List OutMsg :=
  let startEvent : VerificationStartEventContent := {
    fromDevice := mach.deviceID
    transactionID := transactionID
    method := "m.sas"
    keyAgreementProtocols := ["curve25519-hkdf-sha256"]
    hashes := ["sha256"]
    messageAuthenticationCodes := ["hkdf-hmac-sha256"]
    shortAuthenticationString := hookMethods }
  let startMessage := OutMsg.startMsg device.userID device.deviceID transactionID hookMethods
  let verState : verificationState := {
    sasPubkey := newPubkey
    theirKey := none
    otherUser := device.userID
    otherDeviceID := device.deviceID
    otherSigningKey := device.signingKey
    initiatedByUs := true
    verificationStarted := false
    keyReceived := false
    sasMatchedSent := none
    commitment := ""
    startEventCanonical := canonicalF startEvent
    chosenSASMethod := ""
    hookMethods := hookMethods }
  let res := loadOrStore mach.store (device.userID ++ ":" ++ transactionID) verState
  if res.2 then
    (Except.error "Transaction already exists", res.1, [startMessage])
  else
    (Except.ok transactionID, res.1, [startMessage])

/-- Concrete peer device used by the closed witness and counterexample
theorems. -/
def exDevice : DeviceIdentity := ⟨"@bob:x", "BOBDEV", "bobkey"⟩

/-- Concrete transaction state that has completed the key exchange
(started, peer key received, local confirmation still pending). -/
def exDoneState : verificationState :=
  { sasPubkey := "pubA", theirKey := some "pubB", otherUser := "@bob:x",
    otherDeviceID := "BOBDEV", otherSigningKey := "bobkey", initiatedByUs := true,
    verificationStarted := true, keyReceived := true, sasMatchedSent := none,
    commitment := "c", startEventCanonical := "canon", chosenSASMethod := "decimal",
    hookMethods := ["decimal"] }

/-- Concrete initiator-side transaction state that is awaiting the peer
Key message (started, key not yet received); its stored commitment equals
`"#" ++ "pubB" ++ "canon"`, the digest that the hash function
`fun s => "#" ++ s` assigns to the peer key `"pubB"` concatenated with the
canonical start payload `"canon"`. -/
def exKeyWaitState : verificationState :=
  { sasPubkey := "pubA", theirKey := none, otherUser := "@bob:x",
    otherDeviceID := "BOBDEV", otherSigningKey := "bobkey", initiatedByUs := true,
    verificationStarted := true, keyReceived := false, sasMatchedSent := none,
    commitment := "#pubBcanon", startEventCanonical := "canon",
    chosenSASMethod := "decimal", hookMethods := ["decimal"] }

/-- Concrete stored transaction whose recorded peer user differs from the
user the store key names. -/
def exMismatchState : verificationState :=
  { exDoneState with otherUser := "@carol:x" }

/-- Concrete initiator-side transaction state that is awaiting the peer
Accept message (initiated by us, verification not yet started). -/
def exAwaitAcceptState : verificationState :=
  { sasPubkey := "pubA", theirKey := none, otherUser := "@bob:x",
    otherDeviceID := "BOBDEV", otherSigningKey := "bobkey", initiatedByUs := true,
    verificationStarted := false, keyReceived := false, sasMatchedSent := none,
    commitment := "", startEventCanonical := "canon", chosenSASMethod := "",
    hookMethods := ["decimal", "emoji"] }

/-- The transaction state the initiator-side creation path stores in the
concrete witness run (canonical start payload `"canon"`). -/
def exInitCreatedState : verificationState :=
  { sasPubkey := "pubA", theirKey := none, otherUser := "@bob:x",
    otherDeviceID := "BOBDEV", otherSigningKey := "bobkey", initiatedByUs := true,
    verificationStarted := false, keyReceived := false, sasMatchedSent := none,
    commitment := "", startEventCanonical := "canon", chosenSASMethod := "",
    hookMethods := ["decimal"] }

end SASVerification

namespace SASVerification

/-- C1: for every MAC computation, the MAC "info" input is exactly the
label `MATRIX_KEY_VERIFICATION_MAC` followed by sending user, sending
device, receiving user, receiving device and transaction id with no
delimiters, followed by the encoded main key id for the per-key MAC and by
the literal token `KEY_IDS` for the key-id-list MAC. -/
theorem C1_mac_info_format (macF : String → String → String)
    (us ds ur dr t sk mkid : String) (keys : Option (List String)) :
    (getPKAndKeysMAC macF us ds ur dr t sk mkid keys).1 =
      macF sk ("MATRIX_KEY_VERIFICATION_MAC" ++ us ++ ds ++ ur ++ dr ++ t ++ mkid) ∧
    (getPKAndKeysMAC macF us ds ur dr t sk mkid keys).2 =
      macF (match keys with
            | none => mkid
            | some ks => String.intercalate "," (sortStrings ks))
        ("MATRIX_KEY_VERIFICATION_MAC" ++ us ++ ds ++ ur ++ dr ++ t ++ "KEY_IDS") := by
  constructor <;> rfl

/-- Helper: a sorted run of `sortStrings` is determined by the multiset of
its input. -/
theorem sortStrings_perm_eq {l₁ l₂ : List String} (h : l₁.Perm l₂) :
    sortStrings l₁ = sortStrings l₂ := by
  apply List.eq_of_perm_of_sorted (r := fun a b : String => a ≤ b)
  · exact (List.perm_insertionSort _ l₁).trans (h.trans (List.perm_insertionSort _ l₂).symm)
  · exact List.sorted_insertionSort _ l₁
  · exact List.sorted_insertionSort _ l₂

/-- C10: the output of `getPKAndKeysMAC` depends only on the set of key
ids in the supplied map, not on the iteration order of the map: permuting the
key-id list leaves both MACs unchanged, because the key ids are sorted
lexicographically and joined with "," before MACing. -/
theorem C10_keys_mac_iteration_order_independent
    (macF : String → String → String)
    (us ds ur dr t sk mkid : String) {keys₁ keys₂ : List String}
    (h : keys₁.Perm keys₂) :
    getPKAndKeysMAC macF us ds ur dr t sk mkid (some keys₁) =
      getPKAndKeysMAC macF us ds ur dr t sk mkid (some keys₂) := by
  simp only [getPKAndKeysMAC, sortStrings_perm_eq h]

/-- Helper: one-step unfolding of `storeLoad` on a nonempty store. -/
theorem storeLoad_cons (x : String × verificationState) (l : Store) (k : String) :
    storeLoad (x :: l) k = if x.1 == k then some x.2 else storeLoad l k := by
  by_cases h : (x.1 == k) = true <;> simp [storeLoad, List.find?_cons, h]

/-- Helper: one-step unfolding of `storeDelete` on a nonempty store. -/
theorem storeDelete_cons (x : String × verificationState) (l : Store) (k : String) :
    storeDelete (x :: l) k =
      if x.1 = k then storeDelete l k else x :: storeDelete l k := by
  by_cases h : x.1 = k <;> simp [storeDelete, List.filter_cons, h]

/-- Helper: one-step unfolding of `storeUpdate` on a nonempty store. -/
theorem storeUpdate_cons (x : String × verificationState) (l : Store) (k : String)
    (v : verificationState) :
    storeUpdate (x :: l) k v = (if x.1 = k then (k, v) else x) :: storeUpdate l k v := by
  by_cases h : x.1 = k <;> simp [storeUpdate, h]

/-- Helper: restating `storeLoad_cons` with a propositional condition. -/
theorem storeLoad_cons_eq (x : String × verificationState) (l : Store) (k : String) :
    storeLoad (x :: l) k = if x.1 = k then some x.2 else storeLoad l k := by
  rw [storeLoad_cons]
  by_cases h : x.1 = k <;> simp [h]

/-- Helper: looking up a key right after deleting it finds nothing. -/
theorem storeLoad_storeDelete_self (s : Store) (k : String) :
    storeLoad (storeDelete s k) k = none := by
  induction s with
  | nil => rfl
  | cons e t ih =>
      rw [storeDelete_cons]
      by_cases he : e.1 = k
      · rw [if_pos he]
        exact ih
      · rw [if_neg he, storeLoad_cons_eq, if_neg he]
        exact ih

/-- Helper: deleting one key does not touch the bindings of other keys. -/
theorem storeLoad_storeDelete_other (s : Store) (k k' : String) (hne : k ≠ k') :
    storeLoad (storeDelete s k) k' = storeLoad s k' := by
  induction s with
  | nil => rfl
  | cons e t ih =>
      rw [storeDelete_cons, storeLoad_cons_eq]
      by_cases he : e.1 = k
      · rw [if_pos he, if_neg (he ▸ hne), ih]
      · rw [if_neg he, storeLoad_cons_eq]
        by_cases he' : e.1 = k'
        · rw [if_pos he', if_pos he']
        · rw [if_neg he', if_neg he', ih]

/-- Helper: full characterisation of a lookup after `storeUpdate`. -/
theorem storeLoad_storeUpdate (s : Store) (k k' : String) (v : verificationState) :
    storeLoad (storeUpdate s k v) k' =
      if k = k' then (storeLoad s k).map (fun _ => v) else storeLoad s k' := by
  induction s with
  | nil => by_cases hk : k = k' <;> simp [storeLoad, storeUpdate, hk]
  | cons e t ih =>
      rw [storeUpdate_cons, storeLoad_cons_eq]
      by_cases he : e.1 = k
      · rw [if_pos he]
        by_cases hk : k = k'
        · subst hk
          simp only [if_pos rfl]
          rw [storeLoad_cons_eq, if_pos he]
          rfl
        · simp only [if_neg hk]
          rw [ih, if_neg hk, storeLoad_cons_eq, if_neg (fun hc => hk (he ▸ hc))]
      · rw [if_neg he]
        by_cases he' : e.1 = k'
        · have hk : k ≠ k' := fun hc => he (hc ▸ he')
          rw [if_pos he', if_neg hk, storeLoad_cons_eq, if_pos he']
        · rw [if_neg he', ih]
          by_cases hk : k = k'
          · rw [if_pos hk, if_pos hk, storeLoad_cons_eq, if_neg he]
          · rw [if_neg hk, if_neg hk, storeLoad_cons_eq, if_neg he']

/-- Helper: `storeUpdate` never makes a key disappear. -/
theorem storeLoad_storeUpdate_none {s : Store} {k k' : String} {v : verificationState}
    (h : storeLoad (storeUpdate s k v) k' = none) : storeLoad s k' = none := by
  rw [storeLoad_storeUpdate] at h
  by_cases hk : k = k'
  · rw [if_pos hk] at h
    rw [← hk]
    exact Option.map_eq_none'.1 h
  · rw [if_neg hk] at h
    exact h

/-- Helper: updating a present key stores the new value at it. -/
theorem storeLoad_storeUpdate_self {s : Store} {k : String} {v₀ : verificationState}
    (v : verificationState) (h : storeLoad s k = some v₀) :
    storeLoad (storeUpdate s k v) k = some v := by
  rw [storeLoad_storeUpdate, if_pos rfl, h]
  rfl

/-- Helper: a key that loads nothing occurs zero times in the store. -/
theorem countKey_eq_zero {s : Store} {k : String} (h : storeLoad s k = none) :
    countKey s k = 0 := by
  induction s with
  | nil => rfl
  | cons e t ih =>
      by_cases he : e.1 == k
      · simp [storeLoad, List.find?, he] at h
      · simp only [storeLoad, List.find?, he] at h
        simpa [countKey, List.filter, he] using ih h

/-- Helper: transaction lookup on an absent key: a wildcard-addressed
unknown-transaction Cancel, store untouched. -/
theorem getTransactionState_notFound {store : Store} {transactionID userID : String}
    (h : storeLoad store (userID ++ ":" ++ transactionID) = none) :
    getTransactionState store transactionID userID =
      (none, store,
       [OutMsg.cancelMsg userID "*" transactionID
          ("Unknown transaction: " ++ transactionID) .unknownTransaction]) := by
  unfold getTransactionState
  rw [h]

/-- Helper: transaction lookup on a present key with matching peer user. -/
theorem getTransactionState_found {store : Store} {transactionID userID : String}
    {verState : verificationState}
    (h : storeLoad store (userID ++ ":" ++ transactionID) = some verState)
    (hu : verState.otherUser = userID) :
    getTransactionState store transactionID userID = (some verState, store, []) := by
  unfold getTransactionState
  rw [h]
  simp [hu]

/-- Witness for C10 at a concrete permuted pair of key-id lists. -/
theorem C10_keys_mac_iteration_order_independent_witness :
    (["ed25519:B", "ed25519:A"].Perm ["ed25519:A", "ed25519:B"]) ∧
    getPKAndKeysMAC (fun k i => k ++ "|" ++ i) "@u:x" "D1" "@v:x" "D2" "t" "sk" "ed25519:D1"
        (some ["ed25519:B", "ed25519:A"]) =
      getPKAndKeysMAC (fun k i => k ++ "|" ++ i) "@u:x" "D1" "@v:x" "D2" "t" "sk" "ed25519:D1"
        (some ["ed25519:A", "ed25519:B"]) :=
  ⟨List.Perm.swap _ _ _,
   C10_keys_mac_iteration_order_independent _ "@u:x" "D1" "@v:x" "D2" "t" "sk" "ed25519:D1"
     (List.Perm.swap _ _ _)⟩

/-- C4: an inbound Accept, Key or Mac message whose
`(sender user, transaction id)` key has no stored transaction produces
exactly one Cancel reply carrying the unknown-transaction code, addressed
to the wildcard device `*`, and leaves the transaction store untouched. -/
theorem C4_unknown_transaction_cancel (sha256F : String → String) (mach : Machine)
    (userID : String) (acceptContent : VerificationAcceptEventContent)
    (keyContent : VerificationKeyEventContent) (macContent : VerificationMacEventContent)
    (ha : storeLoad mach.store (userID ++ ":" ++ acceptContent.transactionID) = none)
    (hk : storeLoad mach.store (userID ++ ":" ++ keyContent.transactionID) = none)
    (hm : storeLoad mach.store (userID ++ ":" ++ macContent.transactionID) = none) :
    handleVerificationAccept mach userID acceptContent =
      ⟨mach.store,
       [OutMsg.cancelMsg userID "*" acceptContent.transactionID
          ("Unknown transaction: " ++ acceptContent.transactionID) .unknownTransaction], []⟩ ∧
    handleVerificationKey sha256F mach userID keyContent =
      ⟨mach.store,
       [OutMsg.cancelMsg userID "*" keyContent.transactionID
          ("Unknown transaction: " ++ keyContent.transactionID) .unknownTransaction], []⟩ ∧
    handleVerificationMAC mach userID macContent =
      (⟨mach.store,
        [OutMsg.cancelMsg userID "*" macContent.transactionID
           ("Unknown transaction: " ++ macContent.transactionID) .unknownTransaction], []⟩,
       false) := by
  refine ⟨?_, ?_, ?_⟩
  · unfold handleVerificationAccept
    rw [getTransactionState_notFound ha]
  · unfold handleVerificationKey
    rw [getTransactionState_notFound hk]
  · unfold handleVerificationMAC
    rw [getTransactionState_notFound hm]

/-- Witness for C4: a machine with an empty store replies to a Mac message
with exactly one wildcard-addressed unknown-transaction Cancel. -/
theorem C4_unknown_transaction_cancel_witness :
    storeLoad (Machine.mk "@alice:x" "AD" "ak" []).store ("@bob:x" ++ ":" ++ "t1") = none ∧
    handleVerificationMAC ⟨"@alice:x", "AD", "ak", []⟩ "@bob:x" ⟨"t1", "km", []⟩ =
      (⟨[], [OutMsg.cancelMsg "@bob:x" "*" "t1" ("Unknown transaction: " ++ "t1")
          .unknownTransaction], []⟩, false) :=
  ⟨rfl,
   (C4_unknown_transaction_cancel (fun s => s) ⟨"@alice:x", "AD", "ak", []⟩ "@bob:x"
      ⟨"t1", "m", "h", "mc", [], "c"⟩ ⟨"t1", "k"⟩ ⟨"t1", "km", []⟩ rfl rfl rfl).2.2⟩

/-- C5: a Key message for a transaction whose verification has not started,
or that has already recorded a peer key, is cancelled with reason
"Unexpected key message" and the unexpected-message code and the
transaction is removed from the store; since the state is discarded before
`SetTheirKey` would run, the previously stored peer public key is never
overwritten. -/
theorem C5_duplicate_key_cancels (sha256F : String → String) (mach : Machine)
    (userID : String) (content : VerificationKeyEventContent) (verState : verificationState)
    (hload : storeLoad mach.store (userID ++ ":" ++ content.transactionID) = some verState)
    (huser : verState.otherUser = userID)
    (hdup : verState.verificationStarted = false ∨ verState.keyReceived = true) :
    handleVerificationKey sha256F mach userID content =
      ⟨storeDelete mach.store (userID ++ ":" ++ content.transactionID),
       [OutMsg.cancelMsg verState.otherUser verState.otherDeviceID content.transactionID
          "Unexpected key message" .unexpectedMessage],
       [HookCall.onCancel true "Unexpected key message" .unexpectedMessage]⟩ ∧
    storeLoad (handleVerificationKey sha256F mach userID content).store
      (userID ++ ":" ++ content.transactionID) = none := by
  have hcond : (!verState.verificationStarted || verState.keyReceived) = true := by
    rcases hdup with h | h <;> simp [h]
  have hmain : handleVerificationKey sha256F mach userID content =
      ⟨storeDelete mach.store (userID ++ ":" ++ content.transactionID),
       [OutMsg.cancelMsg verState.otherUser verState.otherDeviceID content.transactionID
          "Unexpected key message" .unexpectedMessage],
       [HookCall.onCancel true "Unexpected key message" .unexpectedMessage]⟩ := by
    unfold handleVerificationKey
    rw [getTransactionState_found hload huser]
    simp [hcond]
  refine ⟨hmain, ?_⟩
  rw [hmain]
  exact storeLoad_storeDelete_self _ _

/-- Witness for C5: a second Key message for a transaction that already
recorded the peer key is rejected and the transaction removed. -/
theorem C5_duplicate_key_cancels_witness :
    (storeLoad [("@bob:x" ++ ":" ++ "t1", exDoneState)] ("@bob:x" ++ ":" ++ "t1") =
        some exDoneState) ∧
    handleVerificationKey (fun s => "#" ++ s)
        ⟨"@alice:x", "AD", "ak", [("@bob:x" ++ ":" ++ "t1", exDoneState)]⟩ "@bob:x"
        ⟨"t1", "pubC"⟩ =
      ⟨[], [OutMsg.cancelMsg "@bob:x" "BOBDEV" "t1" "Unexpected key message"
          .unexpectedMessage],
       [HookCall.onCancel true "Unexpected key message" .unexpectedMessage]⟩ :=
  ⟨rfl,
   (C5_duplicate_key_cancels (fun s => "#" ++ s)
      ⟨"@alice:x", "AD", "ak", [("@bob:x" ++ ":" ++ "t1", exDoneState)]⟩ "@bob:x"
      ⟨"t1", "pubC"⟩ exDoneState rfl rfl (Or.inr rfl)).1⟩

/-- C9: handling an inbound Cancel sends no outbound message, deletes the
transaction from the store (even when the stored peer user differs from
the sender, since the `verState` below is unconstrained), and invokes
`OnCancel` with `was_local = false` and the received reason and code
exactly when the transaction existed. -/
theorem C9_cancel_never_replies (mach : Machine) (userID : String)
    (content : VerificationCancelEventContent) :
    (handleVerificationCancel mach userID content).msgs = [] ∧
    (handleVerificationCancel mach userID content).store =
      storeDelete mach.store (userID ++ ":" ++ content.transactionID) ∧
    (∀ verState,
      storeLoad mach.store (userID ++ ":" ++ content.transactionID) = some verState →
      (handleVerificationCancel mach userID content).hooks =
        [HookCall.onCancel false content.reason content.code] ∧
      storeLoad (handleVerificationCancel mach userID content).store
        (userID ++ ":" ++ content.transactionID) = none) ∧
    (storeLoad mach.store (userID ++ ":" ++ content.transactionID) = none →
      (handleVerificationCancel mach userID content).hooks = []) := by
  refine ⟨rfl, rfl, ?_, ?_⟩
  · intro verState h
    refine ⟨?_, ?_⟩
    · simp [handleVerificationCancel, h]
    · exact storeLoad_storeDelete_self _ _
  · intro h
    simp [handleVerificationCancel, h]

/-- Witness for C9: a Cancel from `@bob:x` for a transaction whose stored
peer user is `@carol:x` still deletes the entry and notifies the host that
the cancellation was remote; no message is sent. -/
theorem C9_cancel_never_replies_witness :
    (handleVerificationCancel
        ⟨"@alice:x", "AD", "ak", [("@bob:x" ++ ":" ++ "t1", exMismatchState)]⟩ "@bob:x"
        ⟨"t1", "gone", .byUser⟩).msgs = [] ∧
    (handleVerificationCancel
        ⟨"@alice:x", "AD", "ak", [("@bob:x" ++ ":" ++ "t1", exMismatchState)]⟩ "@bob:x"
        ⟨"t1", "gone", .byUser⟩).hooks = [HookCall.onCancel false "gone" .byUser] ∧
    storeLoad (handleVerificationCancel
        ⟨"@alice:x", "AD", "ak", [("@bob:x" ++ ":" ++ "t1", exMismatchState)]⟩ "@bob:x"
        ⟨"t1", "gone", .byUser⟩).store ("@bob:x" ++ ":" ++ "t1") = none :=
  ⟨(C9_cancel_never_replies
      ⟨"@alice:x", "AD", "ak", [("@bob:x" ++ ":" ++ "t1", exMismatchState)]⟩ "@bob:x"
      ⟨"t1", "gone", .byUser⟩).1,
   ((C9_cancel_never_replies
      ⟨"@alice:x", "AD", "ak", [("@bob:x" ++ ":" ++ "t1", exMismatchState)]⟩ "@bob:x"
      ⟨"t1", "gone", .byUser⟩).2.2.1 exMismatchState rfl).1,
   ((C9_cancel_never_replies
      ⟨"@alice:x", "AD", "ak", [("@bob:x" ++ ":" ++ "t1", exMismatchState)]⟩ "@bob:x"
      ⟨"t1", "gone", .byUser⟩).2.2.1 exMismatchState rfl).2⟩

/-- C2: the responder commitment is the hash of its ephemeral public key
concatenated directly (no separator) with the canonical start JSON; the
initiator, on receiving the peer Key, recomputes that digest from the
received key and its retained canonical start payload and compares it
byte-exactly to the commitment stored from the Accept message — a mismatch
cancels with the commitment-mismatch code and removes the transaction from
the store, a match lets the handler proceed. -/
theorem C2_commitment_check (sha256F : String → String)
    (canonicalF : VerificationStartEventContent → String)
    (mach : Machine) (fromUser : String) (startEvent : VerificationStartEventContent)
    (publicKey : String) (methods : List String) (userID : String)
    (content : VerificationKeyEventContent) (verState : verificationState)
    (hm : startEvent.method = "m.sas")
    (hload : storeLoad mach.store (userID ++ ":" ++ content.transactionID) = some verState)
    (huser : verState.otherUser = userID)
    (hstarted : verState.verificationStarted = true)
    (hkey : verState.keyReceived = false)
    (hinit : verState.initiatedByUs = true) :
    SendSASVerificationAccept sha256F canonicalF fromUser startEvent publicKey methods =
      [OutMsg.acceptMsg fromUser startEvent.fromDevice startEvent.transactionID
         (sha256F (publicKey ++ canonicalF startEvent)) methods] ∧
    (sha256F (content.key ++ verState.startEventCanonical) ≠ verState.commitment →
      handleVerificationKey sha256F mach userID content =
        ⟨storeDelete mach.store (userID ++ ":" ++ content.transactionID),
         [OutMsg.cancelMsg verState.otherUser verState.otherDeviceID content.transactionID
            "Commitment mismatch" .commitmentMismatch],
         [HookCall.onCancel true "Commitment mismatch" .commitmentMismatch]⟩ ∧
      storeLoad (handleVerificationKey sha256F mach userID content).store
        (userID ++ ":" ++ content.transactionID) = none) ∧
    (sha256F (content.key ++ verState.startEventCanonical) = verState.commitment →
      handleVerificationKey sha256F mach userID content =
        ⟨storeUpdate mach.store (userID ++ ":" ++ content.transactionID)
           { verState with theirKey := some content.key, keyReceived := true },
         [], [HookCall.askSASMatch]⟩) := by
  refine ⟨?_, ?_, ?_⟩
  · simp [SendSASVerificationAccept, hm]
  · intro hne
    have hmain : handleVerificationKey sha256F mach userID content =
        ⟨storeDelete mach.store (userID ++ ":" ++ content.transactionID),
         [OutMsg.cancelMsg verState.otherUser verState.otherDeviceID content.transactionID
            "Commitment mismatch" .commitmentMismatch],
         [HookCall.onCancel true "Commitment mismatch" .commitmentMismatch]⟩ := by
      unfold handleVerificationKey
      rw [getTransactionState_found hload huser]
      simp [hstarted, hkey, hinit, hne]
    refine ⟨hmain, ?_⟩
    rw [hmain]
    exact storeLoad_storeDelete_self _ _
  · intro heq
    unfold handleVerificationKey
    rw [getTransactionState_found hload huser]
    simp [hstarted, hkey, hinit, heq]

/-- Witness for C2 with the hash modelled by `fun s => "#" ++ s`: the
stored commitment `"#pubBcanon"` matches the peer key `"pubB"` against the
canonical payload `"canon"`, so the Key is accepted; the forged key
`"evil"` produces `"#evilcanon"`, a mismatch that cancels with the
commitment-mismatch code. -/
theorem C2_commitment_check_witness :
    SendSASVerificationAccept (fun s => "#" ++ s) (fun _ => "canon") "@bob:x"
        ⟨"BOBDEV", "t1", "m.sas", [], [], [], ["decimal"]⟩ "pubA" ["decimal"] =
      [OutMsg.acceptMsg "@bob:x" "BOBDEV" "t1" ("#" ++ ("pubA" ++ "canon")) ["decimal"]] ∧
    handleVerificationKey (fun s => "#" ++ s)
        ⟨"@alice:x", "AD", "ak", [("@bob:x" ++ ":" ++ "t1", exKeyWaitState)]⟩ "@bob:x"
        ⟨"t1", "evil"⟩ =
      ⟨[], [OutMsg.cancelMsg "@bob:x" "BOBDEV" "t1" "Commitment mismatch"
          .commitmentMismatch],
       [HookCall.onCancel true "Commitment mismatch" .commitmentMismatch]⟩ ∧
    handleVerificationKey (fun s => "#" ++ s)
        ⟨"@alice:x", "AD", "ak", [("@bob:x" ++ ":" ++ "t1", exKeyWaitState)]⟩ "@bob:x"
        ⟨"t1", "pubB"⟩ =
      ⟨[("@bob:x" ++ ":" ++ "t1",
         { exKeyWaitState with theirKey := some "pubB", keyReceived := true })],
       [], [HookCall.askSASMatch]⟩ :=
  ⟨(C2_commitment_check (fun s => "#" ++ s) (fun _ => "canon")
      ⟨"@alice:x", "AD", "ak", [("@bob:x" ++ ":" ++ "t1", exKeyWaitState)]⟩ "@bob:x"
      ⟨"BOBDEV", "t1", "m.sas", [], [], [], ["decimal"]⟩ "pubA" ["decimal"] "@bob:x"
      ⟨"t1", "evil"⟩ exKeyWaitState rfl rfl rfl rfl rfl rfl).1,
   ((C2_commitment_check (fun s => "#" ++ s) (fun _ => "canon")
      ⟨"@alice:x", "AD", "ak", [("@bob:x" ++ ":" ++ "t1", exKeyWaitState)]⟩ "@bob:x"
      ⟨"BOBDEV", "t1", "m.sas", [], [], [], ["decimal"]⟩ "pubA" ["decimal"] "@bob:x"
      ⟨"t1", "evil"⟩ exKeyWaitState rfl rfl rfl rfl rfl rfl).2.1 (by decide)).1,
   (C2_commitment_check (fun s => "#" ++ s) (fun _ => "canon")
      ⟨"@alice:x", "AD", "ak", [("@bob:x" ++ ":" ++ "t1", exKeyWaitState)]⟩ "@bob:x"
      ⟨"BOBDEV", "t1", "m.sas", [], [], [], ["decimal"]⟩ "pubA" ["decimal"] "@bob:x"
      ⟨"t1", "pubB"⟩ exKeyWaitState rfl rfl rfl rfl rfl rfl).2.2 (by decide)⟩

/-- C8: method negotiation keeps exactly the methods present in both the
local ordered preference list and the peer-advertised list, in the local
preference order (the result is a sublist of the local list, never
resorted); in the Accept handler the chosen SAS method is the first
element of that intersection, and an empty intersection cancels the
transaction with the unknown-method code. -/
theorem C8_method_negotiation (mach : Machine) (userID : String)
    (content : VerificationAcceptEventContent) (verState : verificationState)
    (hookMethods otherMethods : List String) (m : String)
    (hload : storeLoad mach.store (userID ++ ":" ++ content.transactionID) = some verState)
    (huser : verState.otherUser = userID)
    (hinit : verState.initiatedByUs = true)
    (hstart : verState.verificationStarted = false)
    (hkap : content.keyAgreementProtocol = "curve25519-hkdf-sha256")
    (hhash : content.hash = "sha256")
    (hmc : content.messageAuthenticationCode = "hkdf-hmac-sha256") :
    (commonSASMethods hookMethods otherMethods).Sublist hookMethods ∧
    (m ∈ commonSASMethods hookMethods otherMethods ↔
      m ∈ hookMethods ∧ m ∈ otherMethods) ∧
    (commonSASMethods verState.hookMethods content.shortAuthenticationString = [] →
      handleVerificationAccept mach userID content =
        ⟨storeDelete mach.store (userID ++ ":" ++ content.transactionID),
         [OutMsg.cancelMsg verState.otherUser verState.otherDeviceID content.transactionID
            "Verification uses unknown method" .unknownMethod],
         [HookCall.onCancel true "Verification uses unknown method" .unknownMethod]⟩) ∧
    (commonSASMethods verState.hookMethods content.shortAuthenticationString ≠ [] →
      handleVerificationAccept mach userID content =
        ⟨storeUpdate mach.store (userID ++ ":" ++ content.transactionID)
           { verState with
             commitment := content.commitment,
             chosenSASMethod :=
               (commonSASMethods verState.hookMethods
                 content.shortAuthenticationString).headD "",
             verificationStarted := true },
         [OutMsg.keyMsg userID verState.otherDeviceID content.transactionID
            verState.sasPubkey],
         []⟩) := by
  refine ⟨List.filter_sublist _, ?_, ?_, ?_⟩
  · simp [commonSASMethods, List.mem_filter, List.any_eq_true]
  · intro hempty
    unfold handleVerificationAccept
    rw [getTransactionState_found hload huser]
    simp [hinit, hstart, hkap, hhash, hmc, hempty]
  · intro hne
    unfold handleVerificationAccept
    rw [getTransactionState_found hload huser]
    simp [hinit, hstart, hkap, hhash, hmc, List.isEmpty_iff, hne]

/-- Witness for C8: local preference `["decimal", "emoji"]` against the
peer list `["emoji", "decimal"]` negotiates `["decimal", "emoji"]` (local
order, not the peer order), and the Accept handler records `"decimal"` — the
first common method — as the chosen one. -/
theorem C8_method_negotiation_witness :
    commonSASMethods ["decimal", "emoji"] ["emoji", "decimal"] = ["decimal", "emoji"] ∧
    ("decimal" ∈ commonSASMethods ["decimal", "emoji"] ["emoji", "decimal"] ↔
      "decimal" ∈ ["decimal", "emoji"] ∧ "decimal" ∈ ["emoji", "decimal"]) ∧
    handleVerificationAccept
        ⟨"@alice:x", "AD", "ak", [("@bob:x" ++ ":" ++ "t1", exAwaitAcceptState)]⟩ "@bob:x"
        ⟨"t1", "curve25519-hkdf-sha256", "sha256", "hkdf-hmac-sha256",
         ["emoji", "decimal"], "comm"⟩ =
      ⟨[("@bob:x" ++ ":" ++ "t1",
         { exAwaitAcceptState with
           commitment := "comm", chosenSASMethod := "decimal",
           verificationStarted := true })],
       [OutMsg.keyMsg "@bob:x" "BOBDEV" "t1" "pubA"], []⟩ :=
  ⟨rfl,
   (C8_method_negotiation
      ⟨"@alice:x", "AD", "ak", [("@bob:x" ++ ":" ++ "t1", exAwaitAcceptState)]⟩ "@bob:x"
      ⟨"t1", "curve25519-hkdf-sha256", "sha256", "hkdf-hmac-sha256",
       ["emoji", "decimal"], "comm"⟩ exAwaitAcceptState
      ["decimal", "emoji"] ["emoji", "decimal"] "decimal"
      rfl rfl rfl rfl rfl rfl rfl).2.1,
   (C8_method_negotiation
      ⟨"@alice:x", "AD", "ak", [("@bob:x" ++ ":" ++ "t1", exAwaitAcceptState)]⟩ "@bob:x"
      ⟨"t1", "curve25519-hkdf-sha256", "sha256", "hkdf-hmac-sha256",
       ["emoji", "decimal"], "comm"⟩ exAwaitAcceptState
      ["decimal", "emoji"] ["emoji", "decimal"] "decimal"
      rfl rfl rfl rfl rfl rfl rfl).2.2.2 (by decide)⟩

/-- C3: the trust-store write and the host `OnSuccess` notification happen
exactly when the local SAS confirmation is true and both MAC fields the
peer supplied (the key-id-list MAC in `keys` and the per-key MAC at
`ed25519:<peer device>`) equal the locally recomputed expected values
byte-exactly; a false confirmation cancels with the SAS-mismatch code, a
differing MAC field cancels with the key-mismatch code, and no trust write
happens in either case. -/
theorem C3_trust_gated_on_confirmation_and_macs (macF : String → String → String)
    (mach : Machine) (verState : verificationState)
    (content : VerificationMacEventContent) (matched : Bool) :
    (((handleVerificationMACResult macF mach verState content matched).trust ≠ [] ∨
      HookCall.onSuccess ∈
        (handleVerificationMACResult macF mach verState content matched).hooks) ↔
      (matched = true ∧
       content.keys = (expectedMACs macF mach verState content).2 ∧
       mapGet content.mac ("ed25519:" ++ verState.otherDeviceID) =
         (expectedMACs macF mach verState content).1)) ∧
    (matched = false →
      handleVerificationMACResult macF mach verState content matched =
        ⟨[OutMsg.cancelMsg verState.otherUser verState.otherDeviceID content.transactionID
            "SAS do not match" .sasMismatch],
         [HookCall.onCancel true "SAS do not match" .sasMismatch], []⟩) ∧
    (matched = true → content.keys ≠ (expectedMACs macF mach verState content).2 →
      handleVerificationMACResult macF mach verState content matched =
        ⟨[OutMsg.cancelMsg verState.otherUser verState.otherDeviceID content.transactionID
            "Mismatched keys MACs" .keyMismatch],
         [HookCall.onCancel true "Mismatched keys MACs" .keyMismatch], []⟩) ∧
    (matched = true → content.keys = (expectedMACs macF mach verState content).2 →
      mapGet content.mac ("ed25519:" ++ verState.otherDeviceID) ≠
        (expectedMACs macF mach verState content).1 →
      handleVerificationMACResult macF mach verState content matched =
        ⟨[OutMsg.cancelMsg verState.otherUser verState.otherDeviceID content.transactionID
            "Mismatched PK MACs" .keyMismatch],
         [HookCall.onCancel true "Mismatched PK MACs" .keyMismatch], []⟩) ∧
    (matched = true → content.keys = (expectedMACs macF mach verState content).2 →
      mapGet content.mac ("ed25519:" ++ verState.otherDeviceID) =
        (expectedMACs macF mach verState content).1 →
      handleVerificationMACResult macF mach verState content matched =
        ⟨[], [HookCall.onSuccess], [(verState.otherUser, verState.otherDeviceID)]⟩) := by
  cases matched with
  | false =>
      refine ⟨?_, fun _ => rfl, fun h => absurd h (by simp), fun h => absurd h (by simp),
        fun h => absurd h (by simp)⟩
      simp [handleVerificationMACResult]
  | true =>
      by_cases hkeys : content.keys = (expectedMACs macF mach verState content).2
      · by_cases hpk : mapGet content.mac ("ed25519:" ++ verState.otherDeviceID) =
            (expectedMACs macF mach verState content).1
        · refine ⟨?_, by simp, fun _ h => absurd hkeys h, fun _ _ h => absurd hpk h,
            fun _ _ _ => ?_⟩
          · simp [handleVerificationMACResult, hkeys, hpk]
          · simp [handleVerificationMACResult, hkeys, hpk]
        · refine ⟨?_, by simp, fun _ h => absurd hkeys h, fun _ _ _ => ?_, fun _ _ h =>
            absurd h hpk⟩
          · simp [handleVerificationMACResult, hkeys, hpk]
          · simp [handleVerificationMACResult, hkeys, hpk]
      · refine ⟨?_, by simp, fun _ _ => ?_, fun _ h => absurd h hkeys, fun _ h =>
          absurd h hkeys⟩
        · simp [handleVerificationMACResult, hkeys]
        · simp [handleVerificationMACResult, hkeys]

/-- Witness for C3: with the MAC black box modelled by
`fun k i => k ++ "|" ++ i`, a peer Mac message carrying exactly the
expected key-id-list MAC and per-key MAC, together with a positive local
confirmation, yields the trust write and `OnSuccess` — and a negative
confirmation on the same message yields the SAS-mismatch cancellation with
no trust write. -/
theorem C3_trust_gated_on_confirmation_and_macs_witness :
    handleVerificationMACResult (fun k i => k ++ "|" ++ i)
        ⟨"@alice:x", "AD", "ak", []⟩ exDoneState
        ⟨"t1",
         "ed25519:BOBDEV|MATRIX_KEY_VERIFICATION_MAC@bob:xBOBDEV@alice:xADt1KEY_IDS",
         [("ed25519:BOBDEV",
           "bobkey|MATRIX_KEY_VERIFICATION_MAC@bob:xBOBDEV@alice:xADt1ed25519:BOBDEV")]⟩
        true =
      ⟨[], [HookCall.onSuccess], [("@bob:x", "BOBDEV")]⟩ ∧
    handleVerificationMACResult (fun k i => k ++ "|" ++ i)
        ⟨"@alice:x", "AD", "ak", []⟩ exDoneState
        ⟨"t1",
         "ed25519:BOBDEV|MATRIX_KEY_VERIFICATION_MAC@bob:xBOBDEV@alice:xADt1KEY_IDS",
         [("ed25519:BOBDEV",
           "bobkey|MATRIX_KEY_VERIFICATION_MAC@bob:xBOBDEV@alice:xADt1ed25519:BOBDEV")]⟩
        false =
      ⟨[OutMsg.cancelMsg "@bob:x" "BOBDEV" "t1" "SAS do not match" .sasMismatch],
       [HookCall.onCancel true "SAS do not match" .sasMismatch], []⟩ :=
  ⟨(C3_trust_gated_on_confirmation_and_macs (fun k i => k ++ "|" ++ i)
      ⟨"@alice:x", "AD", "ak", []⟩ exDoneState
      ⟨"t1",
       "ed25519:BOBDEV|MATRIX_KEY_VERIFICATION_MAC@bob:xBOBDEV@alice:xADt1KEY_IDS",
       [("ed25519:BOBDEV",
         "bobkey|MATRIX_KEY_VERIFICATION_MAC@bob:xBOBDEV@alice:xADt1ed25519:BOBDEV")]⟩
      true).2.2.2.2 rfl (by decide) (by decide),
   (C3_trust_gated_on_confirmation_and_macs (fun k i => k ++ "|" ++ i)
      ⟨"@alice:x", "AD", "ak", []⟩ exDoneState
      ⟨"t1",
       "ed25519:BOBDEV|MATRIX_KEY_VERIFICATION_MAC@bob:xBOBDEV@alice:xADt1KEY_IDS",
       [("ed25519:BOBDEV",
         "bobkey|MATRIX_KEY_VERIFICATION_MAC@bob:xBOBDEV@alice:xADt1ed25519:BOBDEV")]⟩
      false).2.1 rfl⟩

/-- Helper: transaction lookup on a present key with a mismatching peer
user: a wildcard-addressed user-mismatch Cancel and deletion. -/
theorem getTransactionState_mismatch {store : Store} {transactionID userID : String}
    {verState : verificationState}
    (h : storeLoad store (userID ++ ":" ++ transactionID) = some verState)
    (hu : verState.otherUser ≠ userID) :
    getTransactionState store transactionID userID =
      (none, storeDelete store (userID ++ ":" ++ transactionID),
       [OutMsg.cancelMsg userID "*" transactionID
          ("Unknown user for transaction " ++ transactionID ++ ": " ++ userID)
          .userMismatch]) := by
  unfold getTransactionState
  rw [h]
  simp [hu]

/-- Helper: prepending a binding for `k` adds one occurrence of `k`. -/
theorem countKey_cons_self (s : Store) (k : String) (v : verificationState) :
    countKey ((k, v) :: s) k = countKey s k + 1 := by
  simp [countKey, List.filter_cons]

/-- Helper: every run of the Key handler either emits a Cancel message or
leaves the key set of the store intact (it only rewrites one binding in place). -/
theorem handleVerificationKey_cases (sha256F : String → String) (mach : Machine)
    (userID : String) (content : VerificationKeyEventContent) :
    (handleVerificationKey sha256F mach userID content).msgs.any OutMsg.isCancel = true ∨
    ∃ verState1, (handleVerificationKey sha256F mach userID content).store =
      storeUpdate mach.store (userID ++ ":" ++ content.transactionID) verState1 := by
  unfold handleVerificationKey
  cases hload : storeLoad mach.store (userID ++ ":" ++ content.transactionID) with
  | none =>
      rw [getTransactionState_notFound hload]
      left
      rfl
  | some vs =>
      by_cases huser : vs.otherUser = userID
      · rw [getTransactionState_found hload huser]
        cases hcond : (!vs.verificationStarted || vs.keyReceived) with
        | true =>
            left
            simp [hcond, OutMsg.isCancel]
        | false =>
            cases hinit : vs.initiatedByUs with
            | true =>
                cases hcomm : sha256F (content.key ++ vs.startEventCanonical) !=
                    vs.commitment with
                | true =>
                    left
                    simp [hcond, hinit, hcomm, OutMsg.isCancel]
                | false =>
                    right
                    exact ⟨{ vs with theirKey := some content.key, keyReceived := true },
                      by simp [hcond, hinit, hcomm]⟩
            | false =>
                right
                exact ⟨{ vs with theirKey := some content.key, keyReceived := true },
                  by simp [hcond, hinit]⟩
      · rw [getTransactionState_mismatch hload huser]
        left
        simp [OutMsg.isCancel, storeLoad_storeDelete_self]

/-- Helper: every run of the Accept handler either emits a Cancel message
or leaves the key set of the store intact. -/
theorem handleVerificationAccept_cases (mach : Machine) (userID : String)
    (content : VerificationAcceptEventContent) :
    (handleVerificationAccept mach userID content).msgs.any OutMsg.isCancel = true ∨
    ∃ verState1, (handleVerificationAccept mach userID content).store =
      storeUpdate mach.store (userID ++ ":" ++ content.transactionID) verState1 := by
  unfold handleVerificationAccept
  cases hload : storeLoad mach.store (userID ++ ":" ++ content.transactionID) with
  | none =>
      rw [getTransactionState_notFound hload]
      left
      rfl
  | some vs =>
      by_cases huser : vs.otherUser = userID
      · rw [getTransactionState_found hload huser]
        cases hcond : (!vs.initiatedByUs || vs.verificationStarted) with
        | true =>
            left
            simp [hcond, OutMsg.isCancel]
        | false =>
            cases hparams : (content.keyAgreementProtocol != "curve25519-hkdf-sha256" ||
                content.hash != "sha256" ||
                content.messageAuthenticationCode != "hkdf-hmac-sha256" ||
                (commonSASMethods vs.hookMethods content.shortAuthenticationString).isEmpty) with
            | true =>
                left
                simp [hcond, hparams, OutMsg.isCancel]
            | false =>
                right
                refine ⟨{ vs with
                  commitment := content.commitment,
                  chosenSASMethod := (commonSASMethods vs.hookMethods
                    content.shortAuthenticationString).headD "",
                  verificationStarted := true }, ?_⟩
                simp [hcond, hparams]
      · rw [getTransactionState_mismatch hload huser]
        left
        simp [OutMsg.isCancel]

/-- C6: racing creation attempts on the same `(peer user, transaction id)`
store key — which, since `LoadOrStore` is atomic, interleave as a sequence
of `LoadOrStore` calls — leave exactly one surviving transaction: the
attempt that finds the key occupied leaves the store unchanged and fails
(the responder-side path sends a "Transaction already exists" Cancel, the
initiator-side path returns that error to its caller), while an attempt
that finds the key free installs exactly one entry and does not cancel. -/
theorem C6_creation_collision_one_survivor (sha256F : String → String)
    (canonicalF : VerificationStartEventContent → String) (mach : Machine)
    (userID : String) (content : VerificationStartEventContent)
    (otherDevice device : DeviceIdentity) (hookMethods : List String)
    (newPubkey transactionID : String)
    (hm : content.method = "m.sas")
    (hcommon : commonSASMethods hookMethods content.shortAuthenticationString ≠ []) :
    (∀ v, storeLoad mach.store (userID ++ ":" ++ content.transactionID) = some v →
      actuallyStartVerification sha256F canonicalF mach userID content otherDevice
          .AcceptRequest hookMethods newPubkey =
        (mach.store,
         [OutMsg.cancelMsg otherDevice.userID otherDevice.deviceID content.transactionID
            "Transaction already exists" .unexpectedMessage])) ∧
    (∀ v, storeLoad mach.store (device.userID ++ ":" ++ transactionID) = some v →
      NewSASVerificationWith canonicalF mach device hookMethods transactionID newPubkey =
        (Except.error "Transaction already exists", mach.store,
         [OutMsg.startMsg device.userID device.deviceID transactionID hookMethods])) ∧
    (storeLoad mach.store (userID ++ ":" ++ content.transactionID) = none →
      countKey (actuallyStartVerification sha256F canonicalF mach userID content
          otherDevice .AcceptRequest hookMethods newPubkey).1
        (userID ++ ":" ++ content.transactionID) = 1 ∧
      (actuallyStartVerification sha256F canonicalF mach userID content otherDevice
          .AcceptRequest hookMethods newPubkey).2.any OutMsg.isCancel = false) ∧
    (storeLoad mach.store (device.userID ++ ":" ++ transactionID) = none →
      countKey (NewSASVerificationWith canonicalF mach device hookMethods transactionID
          newPubkey).2.1 (device.userID ++ ":" ++ transactionID) = 1 ∧
      (NewSASVerificationWith canonicalF mach device hookMethods transactionID
          newPubkey).1 = Except.ok transactionID) := by
  refine ⟨?_, ?_, ?_, ?_⟩
  · intro v hv
    unfold actuallyStartVerification
    simp [List.isEmpty_iff, hcommon, loadOrStore, hv]
  · intro v hv
    unfold NewSASVerificationWith
    simp [loadOrStore, hv]
  · intro hfree
    have hstore : (actuallyStartVerification sha256F canonicalF mach userID content
        otherDevice .AcceptRequest hookMethods newPubkey) =
        ((userID ++ ":" ++ content.transactionID,
          { sasPubkey := newPubkey, theirKey := none, otherUser := otherDevice.userID,
            otherDeviceID := otherDevice.deviceID,
            otherSigningKey := otherDevice.signingKey, initiatedByUs := false,
            verificationStarted := true, keyReceived := false, sasMatchedSent := none,
            commitment := "", startEventCanonical := "",
            chosenSASMethod := (commonSASMethods hookMethods
              content.shortAuthenticationString).headD "",
            hookMethods := hookMethods }) :: mach.store,
         [OutMsg.acceptMsg userID content.fromDevice content.transactionID
            (sha256F (newPubkey ++ canonicalF content))
            (commonSASMethods hookMethods content.shortAuthenticationString)]) := by
      unfold actuallyStartVerification
      simp [List.isEmpty_iff, hcommon, loadOrStore, hfree, SendSASVerificationAccept, hm]
    rw [hstore]
    refine ⟨?_, rfl⟩
    rw [countKey_cons_self, countKey_eq_zero hfree]
  · intro hfree
    have hstore : (NewSASVerificationWith canonicalF mach device hookMethods
        transactionID newPubkey) =
        (Except.ok transactionID,
         (device.userID ++ ":" ++ transactionID,
          { sasPubkey := newPubkey, theirKey := none, otherUser := device.userID,
            otherDeviceID := device.deviceID, otherSigningKey := device.signingKey,
            initiatedByUs := true, verificationStarted := false, keyReceived := false,
            sasMatchedSent := none, commitment := "",
            startEventCanonical := canonicalF
              { fromDevice := mach.deviceID, transactionID := transactionID,
                method := "m.sas",
                keyAgreementProtocols := ["curve25519-hkdf-sha256"],
                hashes := ["sha256"],
                messageAuthenticationCodes := ["hkdf-hmac-sha256"],
                shortAuthenticationString := hookMethods },
            chosenSASMethod := "", hookMethods := hookMethods }) :: mach.store,
         [OutMsg.startMsg device.userID device.deviceID transactionID hookMethods]) := by
      unfold NewSASVerificationWith
      simp [loadOrStore, hfree]
    rw [hstore]
    refine ⟨?_, rfl⟩
    rw [countKey_cons_self, countKey_eq_zero hfree]

/-- Witness for C6: on an empty store the initiator-side creation succeeds
and installs exactly one entry at `@bob:x:t1`; a second creation attempt at
the occupied key leaves the store unchanged and sends the
"Transaction already exists" Cancel. -/
theorem C6_creation_collision_one_survivor_witness :
    (countKey (NewSASVerificationWith (fun _ => "canon") ⟨"@alice:x", "AD", "ak", []⟩
        exDevice ["decimal"] "t1" "pubA").2.1 ("@bob:x" ++ ":" ++ "t1") = 1 ∧
     (NewSASVerificationWith (fun _ => "canon") ⟨"@alice:x", "AD", "ak", []⟩
        exDevice ["decimal"] "t1" "pubA").1 = Except.ok "t1") ∧
    actuallyStartVerification (fun s => "#" ++ s) (fun _ => "canon")
        ⟨"@alice:x", "AD", "ak", [("@bob:x" ++ ":" ++ "t1", exInitCreatedState)]⟩
        "@bob:x" ⟨"BOBDEV", "t1", "m.sas", [], [], [], ["decimal"]⟩ exDevice
        .AcceptRequest ["decimal"] "pubR" =
      ([("@bob:x" ++ ":" ++ "t1", exInitCreatedState)],
       [OutMsg.cancelMsg "@bob:x" "BOBDEV" "t1" "Transaction already exists"
          .unexpectedMessage]) :=
  ⟨(C6_creation_collision_one_survivor (fun s => "#" ++ s) (fun _ => "canon")
      ⟨"@alice:x", "AD", "ak", []⟩ "@bob:x"
      ⟨"BOBDEV", "t1", "m.sas", [], [], [], ["decimal"]⟩ exDevice exDevice
      ["decimal"] "pubA" "t1" rfl (by decide)).2.2.2 rfl,
   (C6_creation_collision_one_survivor (fun s => "#" ++ s) (fun _ => "canon")
      ⟨"@alice:x", "AD", "ak", [("@bob:x" ++ ":" ++ "t1", exInitCreatedState)]⟩ "@bob:x"
      ⟨"BOBDEV", "t1", "m.sas", [], [], [], ["decimal"]⟩ exDevice exDevice
      ["decimal"] "pubR" "t1" rfl (by decide)).1 exInitCreatedState rfl⟩

/-- C7 counterexample: a Mac message for a live, fully key-exchanged
transaction whose local SAS confirmation is still pending
(`sasMatchedSent = none`, so the transaction is in no terminal phase and no
timeout fired) is removed from the store by the synchronous part of the MAC
handler while that step sends no message and invokes no hook — the removal
happens before any terminal outcome (Verified or Cancelled) is decided,
contradicting the claim that no handler removes a transaction that is
still in a non-terminal phase. -/
theorem C7_nonterminal_removal_counterexample :
    storeLoad [("@bob:x" ++ ":" ++ "t1", exDoneState)] ("@bob:x" ++ ":" ++ "t1") =
      some exDoneState ∧
    exDoneState.sasMatchedSent = none ∧
    (handleVerificationMAC
        ⟨"@alice:x", "AD", "ak", [("@bob:x" ++ ":" ++ "t1", exDoneState)]⟩ "@bob:x"
        ⟨"t1", "km", []⟩).1.store = [] ∧
    (handleVerificationMAC
        ⟨"@alice:x", "AD", "ak", [("@bob:x" ++ ":" ++ "t1", exDoneState)]⟩ "@bob:x"
        ⟨"t1", "km", []⟩).1.msgs = [] ∧
    (handleVerificationMAC
        ⟨"@alice:x", "AD", "ak", [("@bob:x" ++ ":" ++ "t1", exDoneState)]⟩ "@bob:x"
        ⟨"t1", "km", []⟩).1.hooks = [] ∧
    (handleVerificationMAC
        ⟨"@alice:x", "AD", "ak", [("@bob:x" ++ ":" ++ "t1", exDoneState)]⟩ "@bob:x"
        ⟨"t1", "km", []⟩).2 = true :=
  ⟨rfl, rfl, rfl, rfl, rfl, rfl⟩

/-- C7 (amended): a transaction is removed from the store at most once —
removal happens together with a cancellation (the Key and Accept handlers,
including their unknown-transaction/user-mismatch paths, only ever shrink
the key set while also emitting a Cancel; the removal by the Cancel handler is
the remote cancellation itself), upon the timeout firing (which cancels,
and is a no-op when the transaction is already gone), or immediately upon
receipt of a Mac message for a live transaction with matching sender,
where the MAC handler removes the transaction before the terminal outcome
is decided. -/
theorem C7_removal_discipline (sha256F : String → String) (mach : Machine)
    (userID : String) (keyContent : VerificationKeyEventContent)
    (acceptContent : VerificationAcceptEventContent)
    (macContent : VerificationMacEventContent)
    (cancelContent : VerificationCancelEventContent)
    (verState : verificationState) (store : Store) (transactionID : String) :
    (∀ k, storeLoad (handleVerificationKey sha256F mach userID keyContent).store k = none →
      storeLoad mach.store k = none ∨
      (handleVerificationKey sha256F mach userID keyContent).msgs.any
        OutMsg.isCancel = true) ∧
    (∀ k, storeLoad (handleVerificationAccept mach userID acceptContent).store k = none →
      storeLoad mach.store k = none ∨
      (handleVerificationAccept mach userID acceptContent).msgs.any
        OutMsg.isCancel = true) ∧
    (storeLoad mach.store (userID ++ ":" ++ macContent.transactionID) = some verState →
      verState.otherUser = userID →
      storeLoad (handleVerificationMAC mach userID macContent).1.store
        (userID ++ ":" ++ macContent.transactionID) = none) ∧
    ((handleVerificationCancel mach userID cancelContent).store =
      storeDelete mach.store (userID ++ ":" ++ cancelContent.transactionID)) ∧
    (∀ v, storeLoad store (verState.otherUser ++ ":" ++ transactionID) = some v →
      timeoutFire store verState transactionID =
        ⟨storeDelete store (verState.otherUser ++ ":" ++ transactionID),
         [OutMsg.cancelMsg verState.otherUser verState.otherDeviceID transactionID
            "Timed out" .byTimeout],
         [HookCall.onCancel true "Timed out" .byTimeout]⟩) ∧
    (storeLoad store (verState.otherUser ++ ":" ++ transactionID) = none →
      timeoutFire store verState transactionID = ⟨store, [], []⟩) := by
  refine ⟨?_, ?_, ?_, rfl, ?_, ?_⟩
  · intro k hk
    rcases handleVerificationKey_cases sha256F mach userID keyContent with h | ⟨v1, h⟩
    · right
      exact h
    · left
      rw [h] at hk
      exact storeLoad_storeUpdate_none hk
  · intro k hk
    rcases handleVerificationAccept_cases mach userID acceptContent with h | ⟨v1, h⟩
    · right
      exact h
    · left
      rw [h] at hk
      exact storeLoad_storeUpdate_none hk
  · intro hload huser
    unfold handleVerificationMAC
    rw [getTransactionState_found hload huser]
    cases hcond : (!verState.verificationStarted || !verState.keyReceived) with
    | true => simp [hcond, storeLoad_storeDelete_self]
    | false => simp [hcond, storeLoad_storeDelete_self]
  · intro v hv
    simp [timeoutFire, hv]
  · intro hv
    simp [timeoutFire, hv]

/-- Witness for C7 (amended): the MAC-receipt conjunct at the concrete
machine of the counterexample removes the transaction. -/
theorem C7_removal_discipline_witness :
    storeLoad (handleVerificationMAC
        ⟨"@alice:x", "AD", "ak", [("@bob:x" ++ ":" ++ "t1", exDoneState)]⟩ "@bob:x"
        ⟨"t1", "km", []⟩).1.store ("@bob:x" ++ ":" ++ "t1") = none :=
  (C7_removal_discipline (fun s => "#" ++ s)
      ⟨"@alice:x", "AD", "ak", [("@bob:x" ++ ":" ++ "t1", exDoneState)]⟩ "@bob:x"
      ⟨"t1", "k"⟩ ⟨"t1", "m", "h", "mc", [], "c"⟩ ⟨"t1", "km", []⟩
      ⟨"t1", "r", .byUser⟩ exDoneState [] "t1").2.2.1 rfl rfl

end SASVerification
